import Mathlib

/-!
Verification development for the data-catalog Solr ORM layer
(`datacatalog/solr/solr_orm.py` and the search entry point in
`datacatalog/controllers/web_controllers.py`).

The Python code is shallowly embedded: query construction becomes a pure
function from the search arguments to the parameter record sent to the
engine (or to an error when the Python code would raise), the in-place
mutation of the caller's `fq` list is made explicit by returning the final
state of that list, and hydration of engine documents becomes a function
from association-list documents to entity records in an `Except` monad.
-/

set_option autoImplicit false

namespace DataCatalog

/-- Decidable equality on `Except`, so that concrete runs of the embedded
code can be checked by `decide`. -/
instance {ε α : Type} [DecidableEq ε] [DecidableEq α] : DecidableEq (Except ε α) := fun x y =>
  match x, y with
  | Except.ok a, Except.ok b =>
      if h : a = b then Decidable.isTrue (by rw [h]) else
        Decidable.isFalse (by intro he; injection he; exact h (by assumption))
  | Except.ok _, Except.error _ => Decidable.isFalse (by intro h; exact Except.noConfusion h)
  | Except.error _, Except.ok _ => Decidable.isFalse (by intro h; exact Except.noConfusion h)
  | Except.error e, Except.error f =>
      if h : e = f then Decidable.isTrue (by rw [h]) else
        Decidable.isFalse (by intro he; injection he; exact h (by assumption))

/-- An element of a Solr filter-query (`fq`) list. The Python code appends
plain strings; `default_search` may also place a whole list of strings as a
single element (`fq = [extra_filter]` wraps the list). -/
inductive FqElem where
  | str : String → FqElem
  | lst : List String → FqElem
deriving DecidableEq

/-- Python `str.strip()` with no argument: remove leading and trailing
whitespace characters. -/
def pyStrip (s : String) : String :=
  ⟨(((s.data.dropWhile Char.isWhitespace).reverse).dropWhile Char.isWhitespace).reverse⟩

/-- Accumulating splitter behind `pySplit`: walks the characters, cutting at
whitespace and dropping empty pieces. -/
def pySplitAux : List Char → List Char → List String
  | [], acc => if acc = [] then [] else [⟨acc.reverse⟩]
  | c :: rest, acc =>
      if c.isWhitespace then
        if acc = [] then pySplitAux rest []
        else String.mk acc.reverse :: pySplitAux rest []
      else pySplitAux rest (c :: acc)

/-- Python `str.split()` with no argument: split on runs of whitespace,
dropping empty pieces. -/
def pySplit (s : String) : List String :=
  pySplitAux s.data []

/-- FUZZY_SEARCH_SUFFIX = `'~{}'.format(app.config.get('FUZZY_SEARCH_LEVEL', 4))`:
the edit-distance tolerance marker, `"~4"` when the configuration does not set
FUZZY_SEARCH_LEVEL (solr_orm.py line 49). -/
def FUZZY_SEARCH_SUFFIX (fuzzySearchLevel : Option Nat) : String :=
  "~" ++ toString (fuzzySearchLevel.getD 4)

/-- The free-text clause built by `SolrQuery.search` (solr_orm.py lines 106-113)
for a non-empty (already trimmed) query. In the non-fuzzy branch the source
reads `"{}_text_:'{}'".format(self.entity_name, FUZZY_SEARCH_SUFFIX)`: the
second placeholder is filled with the suffix, not with the query string. -/
def freeTextClause (entity_name query : String) (fuzzy : Bool) (suffix : String) : String :=
  if fuzzy then
    let terms := pySplit query
    let fuzzy_terms := String.intercalate " "
      (terms.map (fun term => "OR " ++ entity_name ++ "_textfuzzy_:" ++ term ++ suffix))
    "(" ++ entity_name ++ "_text_:'" ++ query ++ "' " ++ fuzzy_terms ++ ")"
  else
    entity_name ++ "_text_:'" ++ suffix ++ "'"

/-- The range parameters attached to a `FacetRange` (facets.py: `facet.range`
has `start`, `end`, `gap`, `other`); carried as strings. -/
structure FacetRangeParams where
  rangeStart : String
  rangeEnd : String
  rangeGap : String
  rangeOther : String
deriving DecidableEq

/-- A facet passed to `SolrQuery.search`: either a plain `Facet` or a
`FacetRange`, each with its field name and the values pre-selected on it. -/
inductive SolrFacet where
  | facet : String → List String → SolrFacet
  | facetRange : String → List String → FacetRangeParams → SolrFacet
deriving DecidableEq

/-- Whether a facet is a plain (discrete) facet, i.e. not a `FacetRange`
(`isinstance(facet, FacetRange)` is false). -/
def SolrFacet.isDiscrete : SolrFacet → Bool
  | .facet _ _ => true
  | .facetRange _ _ _ => false

/-- The `params` dict that `SolrQuery.search` builds and passes to
`self.solr_orm.indexer.search` (solr_orm.py lines 99-136). Keys that the code
only sets conditionally (`rows`, `start`) are `Option`; `facetOn` records
whether `params['facet'] = "on"` was set; `rangeParams` collects the
`f.<entity>_<field>.facet.range.*` entries. -/
structure SolrParams where
  sort : String
  defType : String
  qf : String
  fq : List FqElem
  rows : Option Int
  start : Option Int
  facetOn : Bool
  facetField : List String
  facetRangeList : List String
  rangeParams : List (String × String)
deriving DecidableEq

/-- The error raised by `params["facet.range"].append(self.entity_name,
facet.field_name)` (solr_orm.py line 130): `list.append` takes exactly one
argument, so passing two raises a TypeError. -/
def appendTwoArgsError : String :=
  "TypeError: append() takes exactly one argument (2 given)"

/-- One iteration of the facet loop of `SolrQuery.search` (solr_orm.py lines
124-136). The `FacetRange` branch sets the four range parameters and then hits
the two-argument `list.append` call, raising a TypeError; the discrete branch
appends one quoted filter clause per pre-selected value and records the
namespaced field in `facet.field`. -/
def applyFacet (entity_name : String) (params : SolrParams) (facet : SolrFacet) :
    Except String SolrParams :=
  match facet with
  | .facetRange field_name _values r =>
      let params := { params with rangeParams := params.rangeParams ++
        [ ("f." ++ entity_name ++ "_" ++ field_name ++ ".facet.range.start", r.rangeStart),
          ("f." ++ entity_name ++ "_" ++ field_name ++ ".facet.range.end", r.rangeEnd),
          ("f." ++ entity_name ++ "_" ++ field_name ++ ".facet.range.gap", r.rangeGap),
          ("f." ++ entity_name ++ "_" ++ field_name ++ ".facet.range.other", r.rangeOther) ] }
      -- `params["facet.range"].append(self.entity_name, facet.field_name)` raises
      let _ := params
      Except.error appendTwoArgsError
  | .facet field_name values =>
      Except.ok { params with
        fq := params.fq ++ values.map (fun value =>
          FqElem.str (entity_name ++ "_" ++ field_name ++ ":\"" ++ value ++ "\"")),
        facetField := params.facetField ++ [entity_name ++ "_" ++ field_name] }

/-- SolrQuery.search (solr_orm.py lines 76-136), up to the point where the
constructed `params` are handed to the engine. The caller's `fq` list is
mutated in place by the source; here its final state is the `fq` field of the
returned record. An uncaught Python exception (the TypeError of the
`FacetRange` branch) is an `Except.error`. -/
def search (entity_name BOOST : String) (query : String) (rows start : Int)
    (sort sort_order : String) (fq : Option (List FqElem)) (facets : List SolrFacet)
    (fuzzy : Bool) (suffix : String) : Except String SolrParams :=
  let sort_with_order :=
    if sort ≠ "" then sort ++ " " ++ (if sort_order ≠ "" then sort_order else "desc")
    else ""
  let fq0 := match fq with
    | none => []
    | some l => l
  let query := pyStrip query
  let fq1 :=
    if query ≠ "" then fq0 ++ [FqElem.str (freeTextClause entity_name query fuzzy suffix)]
    else fq0
  let params : SolrParams := {
    sort := sort_with_order
    defType := "edismax"
    qf := BOOST
    fq := fq1
    rows := if rows ≠ 0 then some rows else none
    start := if start ≠ 0 then some start else none
    facetOn := facets ≠ []
    facetField := []
    facetRangeList := []
    rangeParams := [] }
  if facets ≠ [] then facets.foldlM (applyFacet entity_name) params
  else Except.ok params

/-- The `fq` list of a successful search request, `none` when the search
raised before issuing the request. -/
def fqOf (r : Except String SolrParams) : Option (List FqElem) :=
  match r with
  | Except.ok p => some p.fq
  | Except.error _ => none

/-- The `rows` entry of a successful search request (`none` inside the outer
`some` means the key was not set), `none` when the search raised. -/
def rowsOf (r : Except String SolrParams) : Option (Option Int) :=
  match r with
  | Except.ok p => some p.rows
  | Except.error _ => none

/-- The `start` entry of a successful search request, `none` when the search
raised. -/
def startOf (r : Except String SolrParams) : Option (Option Int) :=
  match r with
  | Except.ok p => some p.start
  | Except.error _ => none

/-- The construction of the `fq` argument inside `default_search`
(web_controllers.py lines 153-161): start from `None`, wrap a truthy
`extra_filter` list as a single element, and when the entity type name is
non-empty append the clause `type:<entity_type>` (creating the list first if
it is still falsy). -/
def default_search_fq (extra_filter : Option (List String)) (entity_type : String) :
    Option (List FqElem) :=
  let fq : Option (List FqElem) := none
  let fq := match extra_filter with
    | some ef => if ef ≠ [] then some [FqElem.lst ef] else fq
    | none => fq
  if entity_type ≠ "" then
    let fq2 := match fq with
      | none => []
      | some l => if l = [] then [] else l
    some (fq2 ++ [FqElem.str ("type:" ++ entity_type)])
  else fq

/-- A `SolrField` descriptor (solr_orm_fields.py): the engine name of the
field, its engine type and the indexing flags. `ftype` stands for the
source's `type` attribute. -/
structure SolrField where
  name : String
  ftype : String
  indexed : Bool
  stored : Bool
  multivalued : Bool
deriving DecidableEq

/-- A Python class as `SolrORM._find_fields` sees it: its `__dict__` items
that are `SolrField` instances (in declaration order) and its `__bases__`.
`obj` is the root `object` type. -/
inductive PyClass where
  | obj : PyClass
  | cls : List (String × SolrField) → List PyClass → PyClass

/-- Whether a class is the root `object` type (`superclass != object`). -/
def PyClass.isObj : PyClass → Bool
  | .obj => true
  | .cls _ _ => false

/-- Python dict assignment `d[k] = v` on a dict modelled as an association
list: overwrite the value in place when the key is present, append the pair
otherwise. -/
def dictSet : List (String × SolrField) → String → SolrField → List (String × SolrField)
  | [], k, v => [(k, v)]
  | p :: t, k, v => if p.1 = k then (k, v) :: t else p :: dictSet t k v

/-- Python dict lookup `d.get(k)`. -/
def dictGet (d : List (String × SolrField)) (k : String) : Option SolrField :=
  (d.find? (fun p => p.1 = k)).map Prod.snd

mutual
/-- SolrORM._find_fields (solr_orm.py lines 341-347): store every `SolrField`
of the class's own `__dict__` into `attributes`, then recurse into each base
class other than `object`. -/
def _find_fields : PyClass → List (String × SolrField) → List (String × SolrField)
  | PyClass.obj, attributes => attributes
  | PyClass.cls own bases, attributes =>
      _find_fields_bases bases (own.foldl (fun a p => dictSet a p.1 p.2) attributes)

/-- The `for superclass in solr_entity_class.__bases__` loop of
`SolrORM._find_fields`. -/
def _find_fields_bases : List PyClass → List (String × SolrField) → List (String × SolrField)
  | [], attributes => attributes
  | superclass :: rest, attributes =>
      _find_fields_bases rest
        (if superclass.isObj then attributes else _find_fields superclass attributes)
end

/-- SolrORM.get_fields_for_class (solr_orm.py lines 330-339): run
`_find_fields` on an empty dict. -/
def get_fields_for_class (solr_entity_class : PyClass) : List (String × SolrField) :=
  _find_fields solr_entity_class []

/-- A naive datetime value as `datetime.strptime` produces it. -/
structure PyDatetime where
  year : Nat
  month : Nat
  day : Nat
  hour : Nat
  minute : Nat
  second : Nat
  microsecond : Nat
deriving DecidableEq

/-- Parse exactly `width` decimal digits from the front of `cs`, returning
their value and the rest. -/
def parseFixedNat (width : Nat) (cs : List Char) : Option (Nat × List Char) :=
  let ds := cs.take width
  if ds.length = width ∧ ds.all Char.isDigit then
    some (ds.foldl (fun n c => n * 10 + (c.toNat - 48)) 0, cs.drop width)
  else none

/-- Consume one expected literal character. -/
def parseLit (c : Char) (cs : List Char) : Option (List Char) :=
  match cs with
  | [] => none
  | x :: rest => if x = c then some rest else none

/-- Parse a `%f` fractional-seconds group: one to six digits, zero-padded on
the right to microseconds. -/
def parseMicro (cs : List Char) : Option (Nat × List Char) :=
  let ds := (cs.take 6).takeWhile Char.isDigit
  if ds.length = 0 then none
  else
    some ((ds.foldl (fun n c => n * 10 + (c.toNat - 48)) 0) * 10 ^ (6 - ds.length),
      cs.drop ds.length)

/-- Range validation that `strptime` applies to the parsed components. -/
def validComponents (month day hour minute second : Nat) : Bool :=
  1 ≤ month && month ≤ 12 && 1 ≤ day && day ≤ 31 && hour ≤ 23 && minute ≤ 59 && second ≤ 59

/-- Modelled from the spec: the primary timestamp format `DATETIME_FORMAT`
(declared in solr_orm_entity.py, which is not part of the staged sources) —
a timestamp with fractional seconds, `%Y-%m-%dT%H:%M:%S.%fZ`. -/
def strptimeDatetimeFormat (s : String) : Option PyDatetime :=
  match parseFixedNat 4 s.data with
  | none => none
  | some (year, cs) =>
  match parseLit '-' cs with
  | none => none
  | some cs =>
  match parseFixedNat 2 cs with
  | none => none
  | some (month, cs) =>
  match parseLit '-' cs with
  | none => none
  | some cs =>
  match parseFixedNat 2 cs with
  | none => none
  | some (day, cs) =>
  match parseLit 'T' cs with
  | none => none
  | some cs =>
  match parseFixedNat 2 cs with
  | none => none
  | some (hour, cs) =>
  match parseLit ':' cs with
  | none => none
  | some cs =>
  match parseFixedNat 2 cs with
  | none => none
  | some (minute, cs) =>
  match parseLit ':' cs with
  | none => none
  | some cs =>
  match parseFixedNat 2 cs with
  | none => none
  | some (second, cs) =>
  match parseLit '.' cs with
  | none => none
  | some cs =>
  match parseMicro cs with
  | none => none
  | some (microsecond, cs) =>
  match parseLit 'Z' cs with
  | none => none
  | some cs =>
  if cs = [] ∧ validComponents month day hour minute second then
    some ⟨year, month, day, hour, minute, second, microsecond⟩
  else none

/-- Modelled from the spec: the secondary no-fractional-seconds format
`DATETIME_FORMAT_NO_MICRO` (declared in solr_orm_entity.py, not part of the
staged sources) — `%Y-%m-%dT%H:%M:%SZ`. -/
def strptimeDatetimeFormatNoMicro (s : String) : Option PyDatetime :=
  match parseFixedNat 4 s.data with
  | none => none
  | some (year, cs) =>
  match parseLit '-' cs with
  | none => none
  | some cs =>
  match parseFixedNat 2 cs with
  | none => none
  | some (month, cs) =>
  match parseLit '-' cs with
  | none => none
  | some cs =>
  match parseFixedNat 2 cs with
  | none => none
  | some (day, cs) =>
  match parseLit 'T' cs with
  | none => none
  | some cs =>
  match parseFixedNat 2 cs with
  | none => none
  | some (hour, cs) =>
  match parseLit ':' cs with
  | none => none
  | some cs =>
  match parseFixedNat 2 cs with
  | none => none
  | some (minute, cs) =>
  match parseLit ':' cs with
  | none => none
  | some cs =>
  match parseFixedNat 2 cs with
  | none => none
  | some (second, cs) =>
  match parseLit 'Z' cs with
  | none => none
  | some cs =>
  if cs = [] ∧ validComponents month day hour minute second then
    some ⟨year, month, day, hour, minute, second, 0⟩
  else none

/-- An attribute value set by `SolrQuery._build_instance`: Python `None`, the
raw document value, or a parsed datetime. -/
inductive AttrValue where
  | pyNone : AttrValue
  | raw : String → AttrValue
  | date : PyDatetime → AttrValue
deriving DecidableEq

/-- Python `doc.get(k, None)` on a document modelled as an association list. -/
def pyDictGetStr (doc : List (String × String)) (k : String) : Option String :=
  (doc.find? (fun p => p.1 = k)).map Prod.snd

/-- Python slicing `s[n:]` on code points. -/
def pySliceFrom (s : String) (n : Nat) : String :=
  ⟨s.data.drop n⟩

/-- The per-field body of the `for attribute_name, field in ... .items()` loop
of `SolrQuery._build_instance` (solr_orm.py lines 209-217): a present value of
a `pdate` field is parsed with the primary format, then with the
no-fractional-seconds format; a second `ValueError` propagates. Any other
value is assigned as-is. -/
def hydrateValue (field_type : String) (solr_value : Option String) : Except String AttrValue :=
  match solr_value with
  | none => Except.ok AttrValue.pyNone
  | some v =>
    if field_type = "pdate" then
      match strptimeDatetimeFormat v with
      | some d => Except.ok (AttrValue.date d)
      | none =>
        match strptimeDatetimeFormatNoMicro v with
        | some d => Except.ok (AttrValue.date d)
        | none => Except.error ("ValueError: time data " ++ v ++ " does not match format")
    else Except.ok (AttrValue.raw v)

/-- The id assignment of `SolrQuery._build_instance` (solr_orm.py lines
218-222): take `doc.get('id', None)` and, when truthy, strip the first
`len(entity_name) + 1` characters. -/
def idFromDoc (entity_name : String) (doc : List (String × String)) : Option String :=
  match pyDictGetStr doc "id" with
  | none => none
  | some doc_id =>
      if doc_id ≠ "" then some (pySliceFrom doc_id (entity_name.length + 1))
      else some doc_id

/-- A hydrated entity instance: the attribute values in field order, plus the
`id` attribute. -/
structure EntityInstance where
  attrs : List (String × AttrValue)
  id : Option String
deriving DecidableEq

/-- The `for attribute_name, field in self.class_object._solr_fields.items()`
loop of `SolrQuery._build_instance`: hydrate the fields in order, stopping at
the first uncaught `ValueError`. -/
def hydrateAttrs (entity_name : String) (doc : List (String × String)) :
    List (String × SolrField) → Except String (List (String × AttrValue))
  | [] => Except.ok []
  | (attribute_name, field) :: rest =>
      match hydrateValue field.ftype (pyDictGetStr doc (entity_name ++ "_" ++ field.name)) with
      | Except.error msg => Except.error msg
      | Except.ok value =>
          match hydrateAttrs entity_name doc rest with
          | Except.error msg => Except.error msg
          | Except.ok values => Except.ok ((attribute_name, value) :: values)

/-- SolrQuery._build_instance (solr_orm.py lines 207-223): hydrate each field
of the class's `_solr_fields` map from its namespaced document key, then strip
the entity prefix off the document id. An uncaught `ValueError` from date
parsing is an `Except.error`. -/
def _build_instance (entity_name : String) (solr_fields : List (String × SolrField))
    (doc : List (String × String)) : Except String EntityInstance :=
  match hydrateAttrs entity_name doc solr_fields with
  | Except.error msg => Except.error msg
  | Except.ok attrs => Except.ok ⟨attrs, idFromDoc entity_name doc⟩

/-- Modelled from the spec: the engine-side document id invariant
`id = "<entityName>_<id>"` (the save path lives in solr_orm_entity.py, which
is not part of the staged sources). -/
def document_id (entity_name entity_id : String) : String :=
  entity_name ++ "_" ++ entity_id

/-- The engine's answer to a query: the total hit count and the returned
documents. -/
structure SolrResults where
  hits : Nat
  docs : List (List (String × String))
deriving DecidableEq

/-- SolrQuery.get (solr_orm.py lines 194-205). The engine is a function from
the query string and the `rows` parameter to results; zero hits return
`None`, otherwise the first document is hydrated (`results.docs[0]` on an
empty list would raise an IndexError). -/
def SolrQuery_get (engine : String → Nat → SolrResults) (entity_name : String)
    (solr_fields : List (String × SolrField)) (entity_id : String) :
    Except String (Option EntityInstance) :=
  let results := engine ("id:" ++ entity_name ++ "_" ++ entity_id) 1
  if results.hits = 0 then Except.ok none
  else
    match results.docs with
    | [] => Except.error "IndexError: list index out of range"
    | doc :: _ => (_build_instance entity_name solr_fields doc).map (fun inst => some inst)

/-- The filter clauses that one facet contributes to the `fq` list. A
discrete facet appends one quoted clause per pre-selected value (solr_orm.py
lines 134-135). The `FacetRange` branch raises before reaching its own `fq`
appends, so it contributes nothing. -/
def facetClauses (entity_name : String) : SolrFacet → List FqElem
  | .facet field_name values =>
      values.map (fun value =>
        FqElem.str (entity_name ++ "_" ++ field_name ++ ":\"" ++ value ++ "\""))
  | .facetRange _ _ _ => []

/-- The entry that one facet contributes to `params["facet.field"]`
(solr_orm.py line 136); a `FacetRange` raises before contributing. -/
def facetFieldNames (entity_name : String) : SolrFacet → List String
  | .facet field_name _ => [entity_name ++ "_" ++ field_name]
  | .facetRange _ _ _ => []

/-- The clauses `SolrQuery.search` appends to the caller's `fq` list: the
free-text clause when the trimmed query is non-empty, then the per-facet
filter clauses in facet order. -/
def addedClauses (entity_name query : String) (fuzzy : Bool) (suffix : String)
    (facets : List SolrFacet) : List FqElem :=
  (if pyStrip query ≠ "" then
    [FqElem.str (freeTextClause entity_name (pyStrip query) fuzzy suffix)]
   else []) ++ (facets.map (facetClauses entity_name)).flatten

theorem foldlM_applyFacet_eq (entity_name : String) :
    ∀ (facets : List SolrFacet) (params : SolrParams),
    (∀ f ∈ facets, f.isDiscrete = true) →
    facets.foldlM (applyFacet entity_name) params =
      Except.ok { params with
        fq := params.fq ++ (facets.map (facetClauses entity_name)).flatten,
        facetField := params.facetField ++ (facets.map (facetFieldNames entity_name)).flatten } := by
  intro facets
  induction facets with
  | nil => intro params _; simp [List.foldlM, pure, Except.pure]
  | cons f rest ih =>
      intro params hdisc
      match f with
      | SolrFacet.facetRange n vs r =>
          have : SolrFacet.isDiscrete (SolrFacet.facetRange n vs r) = true :=
            hdisc _ (List.mem_cons_self _ _)
          simp [SolrFacet.isDiscrete] at this
      | SolrFacet.facet n vs =>
          have hrest : ∀ g ∈ rest, g.isDiscrete = true := by
            intro g hg; exact hdisc g (List.mem_cons_of_mem _ hg)
          simp only [List.foldlM, applyFacet, bind, Except.bind]
          rw [ih _ hrest]
          simp [facetClauses, facetFieldNames, List.append_assoc]

theorem foldlM_applyFacet_error (entity_name : String) :
    ∀ (facets : List SolrFacet) (params : SolrParams),
    (∃ f ∈ facets, f.isDiscrete = false) →
    facets.foldlM (applyFacet entity_name) params = Except.error appendTwoArgsError := by
  intro facets
  induction facets with
  | nil => intro params h; simp at h
  | cons f rest ih =>
      intro params h
      match f with
      | SolrFacet.facetRange n vs r =>
          simp [List.foldlM, applyFacet, bind, Except.bind]
      | SolrFacet.facet n vs =>
          have : ∃ g ∈ rest, g.isDiscrete = false := by
            rcases h with ⟨g, hg, hd⟩
            rcases List.mem_cons.mp hg with hgf | hgr
            · subst hgf; simp [SolrFacet.isDiscrete] at hd
            · exact ⟨g, hgr, hd⟩
          simp only [List.foldlM, applyFacet, bind, Except.bind]
          exact ih _ this

theorem foldlM_applyFacet_ok_fq (entity_name : String) :
    ∀ (facets : List SolrFacet) (params p : SolrParams),
    facets.foldlM (applyFacet entity_name) params = Except.ok p →
    ∃ added, p.fq = params.fq ++ added := by
  intro facets
  induction facets with
  | nil =>
      intro params p h
      have h2 : Except.ok (ε := String) params = Except.ok p := h
      injection h2 with h3
      exact ⟨[], by simp [← h3]⟩
  | cons f rest ih =>
      intro params p h
      match f with
      | SolrFacet.facetRange n vs r =>
          simp [List.foldlM, applyFacet, bind, Except.bind] at h
      | SolrFacet.facet n vs =>
          simp only [List.foldlM, applyFacet, bind, Except.bind] at h
          rcases ih _ _ h with ⟨added, hadd⟩
          exact ⟨(vs.map (fun value =>
              FqElem.str (entity_name ++ "_" ++ n ++ ":\"" ++ value ++ "\""))) ++ added,
            by rw [hadd]; simp [List.append_assoc]⟩

/-- Full characterization of the request built by `SolrQuery.search` when no
`FacetRange` is present (so no exception is raised). -/
theorem search_eq_of_discrete (entity_name BOOST query : String) (rows start : Int)
    (sort sort_order : String) (fq : Option (List FqElem)) (facets : List SolrFacet)
    (fuzzy : Bool) (suffix : String)
    (hdisc : ∀ f ∈ facets, f.isDiscrete = true) :
    search entity_name BOOST query rows start sort sort_order fq facets fuzzy suffix =
      Except.ok {
        sort := if sort ≠ "" then sort ++ " " ++ (if sort_order ≠ "" then sort_order else "desc")
          else ""
        defType := "edismax"
        qf := BOOST
        fq := fq.getD [] ++ addedClauses entity_name query fuzzy suffix facets
        rows := if rows ≠ 0 then some rows else none
        start := if start ≠ 0 then some start else none
        facetOn := facets ≠ []
        facetField := (facets.map (facetFieldNames entity_name)).flatten
        facetRangeList := []
        rangeParams := [] } := by
  by_cases hq : pyStrip query = "" <;> by_cases hfacets : facets = []
  · subst hfacets; cases fq <;> simp [search, addedClauses, hq]
  · cases fq <;>
      simp [search, hq, hfacets, foldlM_applyFacet_eq entity_name facets _ hdisc,
        addedClauses, List.append_assoc]
  · subst hfacets; cases fq <;> simp [search, addedClauses, hq]
  · cases fq <;>
      simp [search, hq, hfacets, foldlM_applyFacet_eq entity_name facets _ hdisc,
        addedClauses, List.append_assoc]

/-- A search whose facets include a `FacetRange` raises the TypeError of the
two-argument `list.append` call before any request is issued. -/
theorem search_error_of_range (entity_name BOOST query : String) (rows start : Int)
    (sort sort_order : String) (fq : Option (List FqElem)) (facets : List SolrFacet)
    (fuzzy : Bool) (suffix : String)
    (hrange : ∃ f ∈ facets, f.isDiscrete = false) :
    search entity_name BOOST query rows start sort sort_order fq facets fuzzy suffix =
      Except.error appendTwoArgsError := by
  have hfacets : facets ≠ [] := by
    rcases hrange with ⟨f, hf, _⟩
    intro h; subst h; simp at hf
  simp [search, hfacets, foldlM_applyFacet_error entity_name facets _ hrange]

/-- Whatever the arguments, a search that reaches the engine sends an `fq`
list that extends the caller's list: clauses are only appended. -/
theorem search_ok_fq_extends (entity_name BOOST query : String) (rows start : Int)
    (sort sort_order : String) (fq0 : List FqElem) (facets : List SolrFacet)
    (fuzzy : Bool) (suffix : String) (p : SolrParams)
    (h : search entity_name BOOST query rows start sort sort_order (some fq0) facets fuzzy
      suffix = Except.ok p) :
    ∃ added, p.fq = fq0 ++ added := by
  by_cases hdisc : ∀ f ∈ facets, f.isDiscrete = true
  · rw [search_eq_of_discrete _ _ _ _ _ _ _ _ _ _ _ hdisc] at h
    refine ⟨addedClauses entity_name query fuzzy suffix facets, ?_⟩
    injection h with h2
    subst h2
    rfl
  · exfalso
    have : ∃ f ∈ facets, f.isDiscrete = false := by
      push_neg at hdisc
      rcases hdisc with ⟨f, hf, hd⟩
      exact ⟨f, hf, by simpa using hd⟩
    rw [search_error_of_range _ _ _ _ _ _ _ _ _ _ _ this] at h
    exact Except.noConfusion h

theorem dictGet_dictSet (d : List (String × SolrField)) (k k2 : String) (v : SolrField) :
    dictGet (dictSet d k v) k2 = if k2 = k then some v else dictGet d k2 := by
  induction d with
  | nil =>
      by_cases h2 : k2 = k
      · simp [dictSet, dictGet, List.find?, h2]
      · have hk : ¬(k = k2) := fun h => h2 h.symm
        simp [dictSet, dictGet, List.find?, hk, h2]
  | cons p t ih =>
      by_cases hp : p.1 = k
      · by_cases h2 : k2 = k
        · simp [dictSet, dictGet, List.find?, hp, h2]
        · have hk : ¬(k = k2) := fun h => h2 h.symm
          have hpk2 : ¬(p.1 = k2) := fun h => h2 ((Eq.symm h).trans hp)
          simp [dictSet, dictGet, List.find?, hp, h2, hk, hpk2]
      · by_cases h2 : p.1 = k2
        · have hk2 : ¬k2 = k := fun h => hp (h2.trans h)
          simp [dictSet, dictGet, List.find?, hp, h2, hk2]
        · simp only [dictSet, hp, if_false]
          simp [dictGet, List.find?, h2] at ih ⊢
          exact ih

theorem foldl_dictSet_not_mem (l : List (String × SolrField)) :
    ∀ (d : List (String × SolrField)) (k : String), (∀ p ∈ l, p.1 ≠ k) →
    dictGet (l.foldl (fun a p => dictSet a p.1 p.2) d) k = dictGet d k := by
  induction l with
  | nil => intro d k _; rfl
  | cons p t ih =>
      intro d k h
      have hp : p.1 ≠ k := h p (List.mem_cons_self _ _)
      have ht : ∀ q ∈ t, q.1 ≠ k := fun q hq => h q (List.mem_cons_of_mem _ hq)
      simp only [List.foldl_cons]
      rw [ih _ k ht, dictGet_dictSet, if_neg (fun hh => hp (Eq.symm hh))]

theorem foldl_dictSet_mem_nodup (l : List (String × SolrField)) :
    ∀ (d : List (String × SolrField)) (k : String) (v : SolrField),
    (l.map Prod.fst).Nodup → (k, v) ∈ l →
    dictGet (l.foldl (fun a p => dictSet a p.1 p.2) d) k = some v := by
  induction l with
  | nil => intro d k v _ hmem; simp at hmem
  | cons p t ih =>
      intro d k v hnodup hmem
      simp only [List.map_cons, List.nodup_cons] at hnodup
      rcases List.mem_cons.mp hmem with heq | hmem2
      · subst heq
        have ht : ∀ q ∈ t, q.1 ≠ k := by
          intro q hq hqk
          have hmm : q.1 ∈ List.map Prod.fst t := List.mem_map_of_mem Prod.fst hq
          exact hnodup.1 (hqk ▸ hmm)
        simp only [List.foldl_cons]
        rw [foldl_dictSet_not_mem t _ k ht, dictGet_dictSet, if_pos rfl]
      · simp only [List.foldl_cons]
        exact ih _ k v hnodup.2 hmem2

theorem default_search_fq_mem (extra_filter : Option (List String)) (entity_type : String)
    (he : entity_type ≠ "") :
    ∃ l, default_search_fq extra_filter entity_type = some l ∧
      FqElem.str ("type:" ++ entity_type) ∈ l := by
  rcases extra_filter with _ | ef
  · exact ⟨[FqElem.str ("type:" ++ entity_type)], by simp [default_search_fq, he], by simp⟩
  · by_cases hef : ef = []
    · subst hef
      exact ⟨[FqElem.str ("type:" ++ entity_type)], by simp [default_search_fq, he], by simp⟩
    · exact ⟨[FqElem.lst ef, FqElem.str ("type:" ++ entity_type)],
        by simp [default_search_fq, he, hef], by simp⟩

theorem data_document_id (entity_name entity_id : String) :
    (document_id entity_name entity_id).data =
      (entity_name.data ++ ['_']) ++ entity_id.data := by
  have h1 : ("_" : String).data = ['_'] := rfl
  simp [document_id, String.data_append, h1]

theorem document_id_ne_empty (entity_name entity_id : String) :
    document_id entity_name entity_id ≠ "" := by
  intro h
  have hdata := congrArg String.data h
  rw [data_document_id] at hdata
  have h0 : ("" : String).data = ([] : List Char) := rfl
  rw [h0] at hdata
  simp [List.append_eq_nil] at hdata

theorem pySliceFrom_document_id (entity_name entity_id : String) :
    pySliceFrom (document_id entity_name entity_id) (entity_name.length + 1) = entity_id := by
  have hlen : entity_name.length + 1 = (entity_name.data ++ ['_']).length := by
    rw [List.length_append]
    rfl
  show String.mk ((document_id entity_name entity_id).data.drop (entity_name.length + 1)) =
    entity_id
  rw [data_document_id, hlen, List.drop_left]

/-- C1 (counterexample): the claim says every call to `SolrQuery.search` puts
the clause `type:<entityName>` into the filter-query list regardless of the
caller-supplied `fq`. Calling `search` on the `dataset` entity with the
caller-supplied `fq = []` produces a request whose complete filter-query list
is just the free-text clause: no `type:dataset` clause is present. -/
theorem C1_no_type_filter_counterexample :
    fqOf (search "dataset" "" "climate" 50 0 "created" "desc" (some []) [] true "~4") =
      some [FqElem.str "(dataset_text_:'climate' OR dataset_textfuzzy_:climate~4)"] ∧
    FqElem.str "type:dataset" ∉
      [FqElem.str "(dataset_text_:'climate' OR dataset_textfuzzy_:climate~4)"] := by decide

/-- C1 (amended): `SolrQuery.search` itself appends no type clause; the
`type:<entityName>` filter is supplied by its caller. `default_search`
(web_controllers.py lines 153-165) always appends `type:<entity_type>` to the
`fq` list it passes, and `search` only ever appends to the caller's list, so
every request issued through `default_search` carries the type filter. -/
theorem C1_type_filter_via_default_search (extra_filter : Option (List String))
    (entity_type BOOST query : String) (rows strt : Int) (sort sort_order : String)
    (facets : List SolrFacet) (fuzzy : Bool) (suffix : String) (p : SolrParams)
    (he : entity_type ≠ "")
    (h : search entity_type BOOST query rows strt sort sort_order
      (default_search_fq extra_filter entity_type) facets fuzzy suffix = Except.ok p) :
    FqElem.str ("type:" ++ entity_type) ∈ p.fq := by
  rcases default_search_fq_mem extra_filter entity_type he with ⟨l, hl, hmem⟩
  rw [hl] at h
  rcases search_ok_fq_extends _ _ _ _ _ _ _ _ _ _ _ _ h with ⟨added, hfq⟩
  rw [hfq]
  exact List.mem_append_left _ hmem

/-- C1 (witness): the amended theorem applied to a concrete `default_search`
call on the `dataset` entity. -/
theorem C1_type_filter_witness :
    FqElem.str ("type:" ++ "dataset") ∈
      (SolrParams.mk "" "edismax" "" [FqElem.str "type:dataset"] (some 50) none false
        [] [] []).fq :=
  C1_type_filter_via_default_search none "dataset" "" "" 50 0 "" "desc" [] true "~4"
    (SolrParams.mk "" "edismax" "" [FqElem.str "type:dataset"] (some 50) none false [] [] [])
    (by decide) (by decide)

/-- C2: for the non-empty query `climate` with `fuzzy=false`, the code appends
the single clause `dataset_text_:'~4'`: the format call fills the placeholder
with `FUZZY_SEARCH_SUFFIX` instead of the trimmed query, so the clause the
claim requires, `dataset_text_:'climate'`, is not what is sent. -/
theorem C2_nonfuzzy_clause_eval :
    fqOf (search "dataset" "" "climate" 50 0 "created" "desc" (some []) [] false
        (FUZZY_SEARCH_SUFFIX none)) =
      some [FqElem.str "dataset_text_:'~4'"] ∧
    FqElem.str "dataset_text_:'~4'" ≠ FqElem.str "dataset_text_:'climate'" := by decide

/-- C3: for a non-empty trimmed query and `fuzzy=true`, the default tolerance
marker is `~4` and the search appends to the caller's filter-query list
exactly one clause combining the exact-phrase match of the whole trimmed
query against `<entityName>_text_` with one fuzzy term per whitespace-split
word against `<entityName>_textfuzzy_`, each suffixed with the marker. -/
theorem C3_fuzzy_clause_construction (entity_name BOOST query : String) (rows strt : Int)
    (sort sort_order : String) (fq0 : List FqElem) (facets : List SolrFacet)
    (level : Option Nat)
    (hq : pyStrip query ≠ "")
    (hdisc : ∀ f ∈ facets, f.isDiscrete = true) :
    FUZZY_SEARCH_SUFFIX none = "~4" ∧
    fqOf (search entity_name BOOST query rows strt sort sort_order (some fq0) facets true
        (FUZZY_SEARCH_SUFFIX level)) =
      some (fq0 ++
        [FqElem.str ("(" ++ entity_name ++ "_text_:'" ++ pyStrip query ++ "' " ++
          String.intercalate " " ((pySplit (pyStrip query)).map (fun term =>
            "OR " ++ entity_name ++ "_textfuzzy_:" ++ term ++ FUZZY_SEARCH_SUFFIX level)) ++
          ")")] ++
        (facets.map (facetClauses entity_name)).flatten) := by
  constructor
  · decide
  · rw [search_eq_of_discrete _ _ _ _ _ _ _ _ _ _ _ hdisc]
    simp [fqOf, addedClauses, hq, freeTextClause, List.append_assoc]

/-- C3 (witness): the fuzzy-clause theorem applied to the query `" foo bar "`
on the `dataset` entity with one discrete facet. -/
theorem C3_fuzzy_clause_witness :
    FUZZY_SEARCH_SUFFIX none = "~4" ∧
    fqOf (search "dataset" "" " foo bar " 50 0 "created" "desc"
        (some [FqElem.str "type:dataset"]) [SolrFacet.facet "year" ["2020"]] true
        (FUZZY_SEARCH_SUFFIX none)) =
      some ([FqElem.str "type:dataset"] ++
        [FqElem.str ("(" ++ "dataset" ++ "_text_:'" ++ pyStrip " foo bar " ++ "' " ++
          String.intercalate " " ((pySplit (pyStrip " foo bar ")).map (fun term =>
            "OR " ++ "dataset" ++ "_textfuzzy_:" ++ term ++ FUZZY_SEARCH_SUFFIX none)) ++
          ")")] ++
        ([SolrFacet.facet "year" ["2020"]].map (facetClauses "dataset")).flatten) :=
  C3_fuzzy_clause_construction "dataset" "" " foo bar " 50 0 "created" "desc"
    [FqElem.str "type:dataset"] [SolrFacet.facet "year" ["2020"]] none
    (by decide) (by decide)

/-- C4 (counterexample): the claim says child-declared fields win on a name
collision. For a child class declaring `title` as a `string` field over a
parent declaring `title` as `text_general`, the computed field map holds the
parent's descriptor: the recursion into the bases runs after the child's own
fields and overwrites them. -/
theorem C4_child_precedence_counterexample :
    dictGet (get_fields_for_class
      (PyClass.cls [("title", SolrField.mk "title" "string" true true false)]
        [PyClass.cls [("title", SolrField.mk "title" "text_general" true true false)]
          [PyClass.obj]])) "title" =
      some (SolrField.mk "title" "text_general" true true false) ∧
    SolrField.mk "title" "text_general" true true false ≠
      SolrField.mk "title" "string" true true false := by decide

/-- C4 (amended): when a class and its direct ancestor both declare a field
under the same attribute name, the field map computed by
`get_fields_for_class` holds the ancestor-declared field: `_find_fields`
stores the class's own fields first and then lets the recursion into the
bases overwrite them on collision. -/
theorem C4_ancestor_precedence (own pown : List (String × SolrField)) (name : String)
    (vchild vparent : SolrField)
    (hnodup : (pown.map Prod.fst).Nodup)
    (_hchild : (name, vchild) ∈ own)
    (hparent : (name, vparent) ∈ pown) :
    dictGet (get_fields_for_class
      (PyClass.cls own [PyClass.cls pown [PyClass.obj]])) name = some vparent := by
  have hred : get_fields_for_class (PyClass.cls own [PyClass.cls pown [PyClass.obj]]) =
      pown.foldl (fun a p => dictSet a p.1 p.2)
        (own.foldl (fun a p => dictSet a p.1 p.2) []) := by
    simp [get_fields_for_class, _find_fields, _find_fields_bases, PyClass.isObj]
  rw [hred]
  exact foldl_dictSet_mem_nodup pown _ name vparent hnodup hparent

/-- C4 (witness): the ancestor-precedence theorem applied to the concrete
`title` collision. -/
theorem C4_ancestor_precedence_witness :
    dictGet (get_fields_for_class
      (PyClass.cls [("title", SolrField.mk "title" "string" true true false)]
        [PyClass.cls [("title", SolrField.mk "title" "text_general" true true false)]
          [PyClass.obj]])) "title" =
      some (SolrField.mk "title" "text_general" true true false) :=
  C4_ancestor_precedence [("title", SolrField.mk "title" "string" true true false)]
    [("title", SolrField.mk "title" "text_general" true true false)] "title"
    (SolrField.mk "title" "string" true true false)
    (SolrField.mk "title" "text_general" true true false)
    (by decide) (by decide) (by decide)

/-- C5: a search whose facets contain a `FacetRange` does not complete: the
two-argument `list.append` call on `params["facet.range"]` raises a TypeError
before the request reaches the engine. -/
theorem C5_facetrange_raises_typeerror :
    search "dataset" "" "" 50 0 "created" "desc" (some [])
      [SolrFacet.facetRange "created"
        ["2000"] (FacetRangeParams.mk "2000-01-01" "2020-01-01" "+1YEAR" "all")]
      false "~4" = Except.error appendTwoArgsError := by decide

/-- C6 (counterexample): the claim says `rows=0` requests a result window of
zero. At `rows=0` the code does not set the `rows` key at all (`if rows:` is
false), so the request carries no window-size parameter instead of `0`. -/
theorem C6_rows_zero_counterexample :
    rowsOf (search "dataset" "" "" 0 0 "created" "desc" none [] false "~4") = some none ∧
    (some (none : Option Int)) ≠ some (some (0 : Int)) := by decide

/-- C6 (amended): for `rows ≠ 0` the request's window-size parameter equals
the given `rows` (with no upper bound imposed), and for `start ≠ 0` the
offset parameter equals the given `start`; at `0` the respective key is
omitted, leaving the engine's default in force. -/
theorem C6_rows_start_mapping (entity_name BOOST query : String) (rows strt : Int)
    (sort sort_order : String) (fq : Option (List FqElem)) (facets : List SolrFacet)
    (fuzzy : Bool) (suffix : String)
    (hdisc : ∀ f ∈ facets, f.isDiscrete = true) :
    rowsOf (search entity_name BOOST query rows strt sort sort_order fq facets fuzzy suffix) =
      some (if rows ≠ 0 then some rows else none) ∧
    startOf (search entity_name BOOST query rows strt sort sort_order fq facets fuzzy suffix) =
      some (if strt ≠ 0 then some strt else none) := by
  rw [search_eq_of_discrete _ _ _ _ _ _ _ _ _ _ _ hdisc]
  exact ⟨rfl, rfl⟩

/-- C6 (witness): the mapping theorem at the export path's row count. -/
theorem C6_rows_start_witness :
    rowsOf (search "dataset" "" "" 100000 20 "created" "desc" none [] false "~4") =
      some (if (100000 : Int) ≠ 0 then some (100000 : Int) else none) ∧
    startOf (search "dataset" "" "" 100000 20 "created" "desc" none [] false "~4") =
      some (if (20 : Int) ≠ 0 then some (20 : Int) else none) :=
  C6_rows_start_mapping "dataset" "" "" 100000 20 "created" "desc" none [] false "~4"
    (by decide)

/-- C7: during hydration, a present value of a date-typed (`pdate`) field is
parsed with the primary timestamp format first; on failure the
no-fractional-seconds format is tried; success under either format stores the
parsed datetime, and failure under both raises the hydration error instead of
dropping the value. -/
theorem C7_date_hydration_fallback (entity_name attribute_name : String) (field : SolrField)
    (doc : List (String × String)) (v : String)
    (htype : field.ftype = "pdate")
    (hdoc : pyDictGetStr doc (entity_name ++ "_" ++ field.name) = some v) :
    (∀ d, strptimeDatetimeFormat v = some d →
      _build_instance entity_name [(attribute_name, field)] doc =
        Except.ok ⟨[(attribute_name, AttrValue.date d)], idFromDoc entity_name doc⟩) ∧
    (strptimeDatetimeFormat v = none →
      ∀ d, strptimeDatetimeFormatNoMicro v = some d →
      _build_instance entity_name [(attribute_name, field)] doc =
        Except.ok ⟨[(attribute_name, AttrValue.date d)], idFromDoc entity_name doc⟩) ∧
    (strptimeDatetimeFormat v = none → strptimeDatetimeFormatNoMicro v = none →
      _build_instance entity_name [(attribute_name, field)] doc =
        Except.error ("ValueError: time data " ++ v ++ " does not match format")) := by
  refine ⟨?_, ?_, ?_⟩
  · intro d h1
    simp [_build_instance, hydrateAttrs, hydrateValue, hdoc, htype, h1]
  · intro h1 d h2
    simp [_build_instance, hydrateAttrs, hydrateValue, hdoc, htype, h1, h2]
  · intro h1 h2
    simp [_build_instance, hydrateAttrs, hydrateValue, hdoc, htype, h1, h2]

/-- C7 (witness): the fallback theorem applied to a document carrying a
primary-format timestamp. -/
theorem C7_date_hydration_witness :
    _build_instance "dataset" [("created", SolrField.mk "created" "pdate" true true false)]
      [("dataset_created", "2020-05-04T10:20:30.123456Z"), ("id", "dataset_42")] =
    Except.ok ⟨[("created", AttrValue.date ⟨2020, 5, 4, 10, 20, 30, 123456⟩)],
      idFromDoc "dataset"
        [("dataset_created", "2020-05-04T10:20:30.123456Z"), ("id", "dataset_42")]⟩ :=
  (C7_date_hydration_fallback "dataset" "created"
    (SolrField.mk "created" "pdate" true true false)
    [("dataset_created", "2020-05-04T10:20:30.123456Z"), ("id", "dataset_42")]
    "2020-05-04T10:20:30.123456Z" (by decide) (by decide)).1
    ⟨2020, 5, 4, 10, 20, 30, 123456⟩ (by decide)

/-- C8: the engine-side document id is `<entityName>_<id>`, and hydrating a
document whose id has that form strips the prefix positionally and recovers
the original entity id. -/
theorem C8_document_id_roundtrip (entity_name entity_id : String) :
    document_id entity_name entity_id = entity_name ++ "_" ++ entity_id ∧
    _build_instance entity_name [] [("id", document_id entity_name entity_id)] =
      Except.ok ⟨[], some entity_id⟩ := by
  refine ⟨rfl, ?_⟩
  have hne := document_id_ne_empty entity_name entity_id
  simp [_build_instance, hydrateAttrs, idFromDoc, pyDictGetStr, List.find?, hne,
    pySliceFrom_document_id]

/-- C9: `SolrQuery.get` returns `None` exactly when the lookup for
`id:<entityName>_<id>` reports zero hits; with hits it returns the entity
hydrated from the first returned document (absence is a return value, not a
raised failure). -/
theorem C9_get_absent_vs_found (engine : String → Nat → SolrResults) (entity_name : String)
    (solr_fields : List (String × SolrField)) (entity_id : String) :
    (SolrQuery_get engine entity_name solr_fields entity_id = Except.ok none ↔
      (engine ("id:" ++ entity_name ++ "_" ++ entity_id) 1).hits = 0) ∧
    (∀ doc rest,
      (engine ("id:" ++ entity_name ++ "_" ++ entity_id) 1).docs = doc :: rest →
      (engine ("id:" ++ entity_name ++ "_" ++ entity_id) 1).hits ≠ 0 →
      SolrQuery_get engine entity_name solr_fields entity_id =
        (_build_instance entity_name solr_fields doc).map (fun inst => some inst)) := by
  constructor
  · constructor
    · intro h
      by_contra h0
      cases hd : (engine ("id:" ++ entity_name ++ "_" ++ entity_id) 1).docs with
      | nil => simp [SolrQuery_get, h0, hd] at h
      | cons d t =>
          simp [SolrQuery_get, h0, hd] at h
          cases hb : _build_instance entity_name solr_fields d with
          | ok inst => simp [hb, Except.map] at h
          | error msg => simp [hb, Except.map] at h
    · intro h0
      simp [SolrQuery_get, h0]
  · intro doc rest hdocs h0
    simp [SolrQuery_get, h0, hdocs]

/-- C9 (witness): the theorem's found-branch applied to a one-document
engine fixture. -/
theorem C9_get_witness :
    SolrQuery_get
      (fun q _ => if q = "id:dataset_42" then SolrResults.mk 1 [[("id", "dataset_42")]]
        else SolrResults.mk 0 [])
      "dataset" [] "42" =
    (_build_instance "dataset" [] [("id", "dataset_42")]).map (fun inst => some inst) :=
  (C9_get_absent_vs_found
    (fun q _ => if q = "id:dataset_42" then SolrResults.mk 1 [[("id", "dataset_42")]]
      else SolrResults.mk 0 [])
    "dataset" [] "42").2 [("id", "dataset_42")] [] (by decide) (by decide)

/-- C10: when the caller supplies an `fq` list, the search request's
filter-query list is that list extended in place with the free-text clause
(for a non-empty query) and one clause per pre-selected facet value, and
reusing the resulting list for a second call accumulates the clauses of both
calls. -/
theorem C10_fq_append_accumulate (entity_name BOOST q1 q2 : String) (r1 s1 r2 s2 : Int)
    (srt1 so1 srt2 so2 : String) (fq0 : List FqElem) (facets1 facets2 : List SolrFacet)
    (fz1 fz2 : Bool) (sx1 sx2 : String)
    (h1 : ∀ f ∈ facets1, f.isDiscrete = true) (h2 : ∀ f ∈ facets2, f.isDiscrete = true) :
    fqOf (search entity_name BOOST q1 r1 s1 srt1 so1 (some fq0) facets1 fz1 sx1) =
      some (fq0 ++ addedClauses entity_name q1 fz1 sx1 facets1) ∧
    fqOf (search entity_name BOOST q2 r2 s2 srt2 so2
        (some (fq0 ++ addedClauses entity_name q1 fz1 sx1 facets1)) facets2 fz2 sx2) =
      some (fq0 ++ addedClauses entity_name q1 fz1 sx1 facets1 ++
        addedClauses entity_name q2 fz2 sx2 facets2) := by
  constructor
  · rw [search_eq_of_discrete _ _ _ _ _ _ _ _ _ _ _ h1]
    rfl
  · rw [search_eq_of_discrete _ _ _ _ _ _ _ _ _ _ _ h2]
    rfl

/-- C10 (witness): the accumulation theorem applied to two concrete calls
sharing one caller list. -/
theorem C10_fq_append_witness :
    fqOf (search "dataset" "" "foo" 50 0 "created" "desc" (some [FqElem.str "type:dataset"])
        [SolrFacet.facet "year" ["2020"]] false "~4") =
      some ([FqElem.str "type:dataset"] ++
        addedClauses "dataset" "foo" false "~4" [SolrFacet.facet "year" ["2020"]]) ∧
    fqOf (search "dataset" "" "bar" 10 5 "created" "asc"
        (some ([FqElem.str "type:dataset"] ++
          addedClauses "dataset" "foo" false "~4" [SolrFacet.facet "year" ["2020"]]))
        [] true "~4") =
      some ([FqElem.str "type:dataset"] ++
        addedClauses "dataset" "foo" false "~4" [SolrFacet.facet "year" ["2020"]] ++
        addedClauses "dataset" "bar" true "~4" []) :=
  C10_fq_append_accumulate "dataset" "" "foo" "bar" 50 0 10 5 "created" "desc" "created" "asc"
    [FqElem.str "type:dataset"] [SolrFacet.facet "year" ["2020"]] [] false true "~4" "~4"
    (by decide) (by decide)

example : pySplit "  foo   bar " = ["foo", "bar"] := by decide

example :
    fqOf (search "dataset" "" "climate" 50 0 "created" "desc" (some []) [] false "~4") =
      some [FqElem.str "dataset_text_:'~4'"] := by decide

example :
    fqOf (search "dataset" "" " foo bar " 50 0 "created" "desc" (some []) [] true "~4") =
      some [FqElem.str
        "(dataset_text_:'foo bar' OR dataset_textfuzzy_:foo~4 OR dataset_textfuzzy_:bar~4)"] := by
  decide

end DataCatalog
